import Mathlib

/-!
Verification of the credit-ledger service core: a shallow embedding of the
domain model, the persistence-layer queries, the ledger command handlers
(Consume / Refund / Allocate), the query handlers (ListTransactions,
EstimateCost), the anomaly detector and the reconciler, together with
theorems settling the specification claims about them.

Modelling conventions:
- Decimal(18,6) monetary values are exact fixed-point numbers; all arithmetic
  on them in the source is addition, subtraction and comparison, so they are
  embedded as `Int` (an implicit scale factor does not affect any claim).
  The estimate cost table is scaled to tenths of a credit so its literal
  decimal constants (10.0, 12.5, ...) stay exact integers.
- Timestamps are abstract ticks (`Nat`); the database state carries a clock
  `now` used for `created_at` / `updated_at` defaults.
- The unit of work is modelled by state threading: a handler returns the
  committed state on success and the unchanged initial state on every error
  path (the scope rolls back when no commit happened).
- `session.flush` on an insert enforcing the unique `idempotency_key`
  constraint is modelled by `transaction_create` returning `Except`, the
  error being the IntegrityError raised on a duplicate key.
- Human-readable error `message` / `reason` strings and log output are not
  modelled; errors are identified by their stable `code`.
-/

/-- Credit transaction types (domain/credit_transaction.py `TransactionType`). -/
inductive TransactionType where
  | consume
  | refund
  | allocate
  | adjust
deriving DecidableEq

/-- Credit transaction row (domain/credit_transaction.py `CreditTransaction`). -/
structure CreditTransaction where
  id : Nat
  tenant_id : String
  ledger_id : Nat
  transaction_type : TransactionType
  amount : Int
  balance_before : Int
  balance_after : Int
  reference_type : Option String
  reference_id : Option String
  idempotency_key : String
  created_at : Nat
deriving DecidableEq

/-- Credit ledger row (domain/credit_ledger.py `CreditLedger`). -/
structure CreditLedger where
  id : Nat
  tenant_id : String
  balance : Int
  monthly_limit : Option Int
  created_at : Nat
  updated_at : Nat
deriving DecidableEq

/-- Anomaly types (domain/usage_anomaly.py `AnomalyType`). -/
inductive AnomalyType where
  | hourly_threshold
  | daily_threshold
  | spike
  | pattern
deriving DecidableEq

/-- Anomaly statuses (domain/usage_anomaly.py `AnomalyStatus`). -/
inductive AnomalyStatus where
  | detected
  | acknowledged
  | resolved
  | false_positive
deriving DecidableEq

/-- Usage anomaly row (domain/usage_anomaly.py `UsageAnomaly`); the free-text
`description` and notification timestamps are not modelled. -/
structure UsageAnomaly where
  id : Nat
  tenant_id : String
  anomaly_type : AnomalyType
  status : AnomalyStatus
  threshold_value : Int
  actual_value : Int
  period_start : Nat
  period_end : Nat
  detected_at : Nat
deriving DecidableEq

/-- The persistent database state the billing use cases read and write. -/
structure DB where
  ledgers : List CreditLedger
  transactions : List CreditTransaction
  anomalies : List UsageAnomaly
  next_ledger_id : Nat
  next_tx_id : Nat
  next_anomaly_id : Nat
  now : Nat
deriving DecidableEq

/-- `SqlAlchemyCreditTransactionRepository.get_by_idempotency_key`: the single
row with the given idempotency key, if any (the key is unique). -/
def transaction_get_by_idempotency_key (db : DB) (key : String) :
    Option CreditTransaction :=
  db.transactions.find? (fun t => decide (t.idempotency_key = key))

/-- `SqlAlchemyCreditTransactionRepository.create`: append the row; the unique
constraint on `idempotency_key` raises IntegrityError on a duplicate. -/
def transaction_create (db : DB) (tx : CreditTransaction) : Except Unit DB :=
  if db.transactions.any (fun t => decide (t.idempotency_key = tx.idempotency_key)) then
    Except.error ()
  else
    Except.ok { db with
      transactions := db.transactions ++ [tx],
      next_tx_id := db.next_tx_id + 1 }

/-- `SqlAlchemyCreditLedgerRepository.get_by_tenant_id` (the `for_update` row
lock has no effect in this sequential model). -/
def ledger_get_by_tenant_id (db : DB) (tenant : String) : Option CreditLedger :=
  db.ledgers.find? (fun l => decide (l.tenant_id = tenant))

/-- `SqlAlchemyCreditLedgerRepository.create`: append a new ledger row with the
next surrogate id. -/
def ledger_create (db : DB) (tenant : String) (balance : Int) : DB :=
  { db with
    ledgers := db.ledgers ++
      [{ id := db.next_ledger_id, tenant_id := tenant, balance := balance,
         monthly_limit := none, created_at := db.now, updated_at := db.now }],
    next_ledger_id := db.next_ledger_id + 1 }

/-- `SqlAlchemyCreditLedgerRepository.update_balance`: set the balance and
`updated_at` of the ledger with the given id. -/
def ledger_update_balance (db : DB) (lid : Nat) (new_balance : Int) : DB :=
  { db with
    ledgers := db.ledgers.map (fun l =>
      if l.id = lid then { l with balance := new_balance, updated_at := db.now }
      else l) }

/-- `SqlAlchemyCreditTransactionRepository.get_transaction_sum_by_ledger`:
`SELECT sum(amount) WHERE ledger_id = lid` — the raw sum of the stored
`amount` column over all of the ledger's transactions, all types included. -/
def get_transaction_sum_by_ledger (db : DB) (lid : Nat) : Int :=
  ((db.transactions.filter (fun t => decide (t.ledger_id = lid))).map
    (fun t => t.amount)).sum

/-- The CONSUME transactions falling in the closed-open window `[s, e)`
(the WHERE clause of `get_consumption_by_period`). -/
def consumeTxInPeriod (db : DB) (s e : Nat) : List CreditTransaction :=
  db.transactions.filter (fun t =>
    decide (t.transaction_type = TransactionType.consume) &&
    decide (s ≤ t.created_at) && decide (t.created_at < e))

/-- `SqlAlchemyCreditTransactionRepository.get_consumption_by_period`:
per-tenant sum of CONSUME amounts in the window (GROUP BY tenant_id; each
tenant appears exactly once). -/
def get_consumption_by_period (db : DB) (s e : Nat) : List (String × Int) :=
  let txs := consumeTxInPeriod db s e
  ((txs.map (fun t => t.tenant_id)).dedup).map (fun tid =>
    (tid, ((txs.filter (fun t => decide (t.tenant_id = tid))).map
      (fun t => t.amount)).sum))

/-- `SqlAlchemyUsageAnomalyRepository.create`: append the anomaly row. -/
def anomaly_create (db : DB) (a : UsageAnomaly) : DB :=
  { db with
    anomalies := db.anomalies ++ [a],
    next_anomaly_id := db.next_anomaly_id + 1 }

/-- `SqlAlchemyUsageAnomalyRepository.exists_for_tenant_period`: whether an
anomaly row already exists for this tenant and exact detection window
(the source counts matching rows and compares with zero). -/
def anomaly_exists_for_tenant_period (db : DB) (tenant : String) (s e : Nat) :
    Bool :=
  db.anomalies.any (fun a =>
    decide (a.tenant_id = tenant) && decide (a.period_start = s) &&
    decide (a.period_end = e))

/-- Stable insertion (descending `created_at`) used to model the SQL
`ORDER BY created_at DESC`: rows with equal keys keep their table order. -/
def insertByCreatedAtDesc (x : CreditTransaction) :
    List CreditTransaction → List CreditTransaction
  | [] => [x]
  | y :: ys =>
    if x.created_at < y.created_at then y :: insertByCreatedAtDesc x ys
    else x :: y :: ys

/-- Stable sort by `created_at` descending (ties keep table order); the model
of the ordering produced by `ORDER BY created_at DESC` in
`get_by_tenant_id` — the source orders by `created_at` only. -/
def sortByCreatedAtDesc : List CreditTransaction → List CreditTransaction
  | [] => []
  | x :: xs => insertByCreatedAtDesc x (sortByCreatedAtDesc xs)

/-- `SqlAlchemyCreditTransactionRepository.get_by_tenant_id`: the tenant's
rows ordered by `created_at` descending with OFFSET/LIMIT paging, paired with
the unfiltered per-tenant count. -/
def transaction_get_by_tenant_id (db : DB) (tenant : String)
    (limit offset : Nat) : List CreditTransaction × Nat :=
  let filtered := db.transactions.filter (fun t => decide (t.tenant_id = tenant))
  (((sortByCreatedAtDesc filtered).drop offset).take limit, filtered.length)

/-- The tagged success-or-error value returned by the use cases
(libs.result `Result` / `Return.ok` / `Return.err`); errors are identified by
their stable code. -/
inductive UCResult (α : Type) where
  | ok (value : α)
  | err (code : String)
deriving DecidableEq

/-- Response DTO of Consume / Refund (dtos.py `CreditTransactionResponseDTO`). -/
structure CreditTransactionResponseDTO where
  transaction_id : Nat
  tenant_id : String
  transaction_type : TransactionType
  amount : Int
  balance_before : Int
  balance_after : Int
  reference_type : Option String
  reference_id : Option String
  idempotency_key : String
  created_at : Nat
deriving DecidableEq

/-- Response DTO of Allocate (dtos.py `AllocateCreditsResponseDTO`). -/
structure AllocateCreditsResponseDTO where
  transaction_id : Nat
  tenant_id : String
  amount : Int
  balance_before : Int
  balance_after : Int
  idempotency_key : String
  created_at : Nat
deriving DecidableEq

/-- Command DTO shared by Consume and Refund. -/
structure ConsumeCommandDTO where
  tenant_id : String
  amount : Int
  idempotency_key : String
  reference_type : Option String
  reference_id : Option String
deriving DecidableEq

/-- Command DTO of Allocate (dtos.py `AllocateCreditsCommandDTO`). -/
structure AllocateCreditsCommandDTO where
  tenant_id : String
  amount : Int
  idempotency_key : String
  reference_type : Option String
  reference_id : Option String
deriving DecidableEq

/-- `ConsumeCredit._to_response_dto` (identical in RefundCredit): every field of
the response is copied from the stored transaction row, the balance snapshots
included. -/
def toCreditTransactionResponse (t : CreditTransaction) :
    CreditTransactionResponseDTO :=
  { transaction_id := t.id
    tenant_id := t.tenant_id
    transaction_type := t.transaction_type
    amount := t.amount
    balance_before := t.balance_before
    balance_after := t.balance_after
    reference_type := t.reference_type
    reference_id := t.reference_id
    idempotency_key := t.idempotency_key
    created_at := t.created_at }

/-- `AllocateCredits._to_response_dto`: response copied from the stored row. -/
def toAllocateCreditsResponse (t : CreditTransaction) :
    AllocateCreditsResponseDTO :=
  { transaction_id := t.id
    tenant_id := t.tenant_id
    amount := t.amount
    balance_before := t.balance_before
    balance_after := t.balance_after
    idempotency_key := t.idempotency_key
    created_at := t.created_at }

/-- Steps 2–8 of `ConsumeCredit.execute` (everything after the idempotency
pre-check): locked ledger fetch, balance validation, transaction insert,
balance update, commit. An IntegrityError raised by the insert (duplicate
`idempotency_key`, the lost race) is caught by the handler's generic
`except Exception` which rolls the scope back and wraps the failure as
CONSUME_CREDIT_FAILED; every error path returns the initial state. -/
def ConsumeCredit_afterCheck (db : DB) (cmd : ConsumeCommandDTO) :
    DB × UCResult CreditTransactionResponseDTO :=
  match ledger_get_by_tenant_id db cmd.tenant_id with
  | none => (db, UCResult.err "LEDGER_NOT_FOUND")
  | some ledger =>
    if ledger.balance < cmd.amount then
      (db, UCResult.err "INSUFFICIENT_CREDIT")
    else
      let balance_before := ledger.balance
      let balance_after := balance_before - cmd.amount
      let tx : CreditTransaction :=
        { id := db.next_tx_id
          tenant_id := cmd.tenant_id
          ledger_id := ledger.id
          transaction_type := TransactionType.consume
          amount := cmd.amount
          balance_before := balance_before
          balance_after := balance_after
          reference_type := cmd.reference_type
          reference_id := cmd.reference_id
          idempotency_key := cmd.idempotency_key
          created_at := db.now }
      match transaction_create db tx with
      | Except.error _ => (db, UCResult.err "CONSUME_CREDIT_FAILED")
      | Except.ok db1 =>
        let db2 := ledger_update_balance db1 ledger.id balance_after
        (db2, UCResult.ok (toCreditTransactionResponse tx))

/-- `ConsumeCredit.execute`: idempotency pre-check on the key alone, then the
mutation steps; a hit returns the response built from the stored row with no
mutation and no commit. -/
def ConsumeCredit_execute (db : DB) (cmd : ConsumeCommandDTO) :
    DB × UCResult CreditTransactionResponseDTO :=
  match transaction_get_by_idempotency_key db cmd.idempotency_key with
  | some existing => (db, UCResult.ok (toCreditTransactionResponse existing))
  | none => ConsumeCredit_afterCheck db cmd

/-- Steps 2–8 of `RefundCredit.execute`: like Consume but the balance is
incremented, with no upper bound and no balance validation; a duplicate-key
IntegrityError at insert is wrapped as REFUND_CREDIT_FAILED after rollback. -/
def RefundCredit_afterCheck (db : DB) (cmd : ConsumeCommandDTO) :
    DB × UCResult CreditTransactionResponseDTO :=
  match ledger_get_by_tenant_id db cmd.tenant_id with
  | none => (db, UCResult.err "LEDGER_NOT_FOUND")
  | some ledger =>
    let balance_before := ledger.balance
    let balance_after := balance_before + cmd.amount
    let tx : CreditTransaction :=
      { id := db.next_tx_id
        tenant_id := cmd.tenant_id
        ledger_id := ledger.id
        transaction_type := TransactionType.refund
        amount := cmd.amount
        balance_before := balance_before
        balance_after := balance_after
        reference_type := cmd.reference_type
        reference_id := cmd.reference_id
        idempotency_key := cmd.idempotency_key
        created_at := db.now }
    match transaction_create db tx with
    | Except.error _ => (db, UCResult.err "REFUND_CREDIT_FAILED")
    | Except.ok db1 =>
      let db2 := ledger_update_balance db1 ledger.id balance_after
      (db2, UCResult.ok (toCreditTransactionResponse tx))

/-- `RefundCredit.execute`: idempotency pre-check, then the refund steps. -/
def RefundCredit_execute (db : DB) (cmd : ConsumeCommandDTO) :
    DB × UCResult CreditTransactionResponseDTO :=
  match transaction_get_by_idempotency_key db cmd.idempotency_key with
  | some existing => (db, UCResult.ok (toCreditTransactionResponse existing))
  | none => RefundCredit_afterCheck db cmd

/-- Steps 2–7 of `AllocateCredits.execute`: fetch the ledger, creating it with
balance 0 and re-fetching when absent, then insert the ALLOCATE transaction
and add the credits; a duplicate-key IntegrityError at insert is wrapped as
ALLOCATE_CREDIT_FAILED after rollback (the uncommitted ledger creation is
rolled back too). -/
def AllocateCredits_afterCheck (db : DB) (cmd : AllocateCreditsCommandDTO) :
    DB × UCResult AllocateCreditsResponseDTO :=
  let fetched :=
    match ledger_get_by_tenant_id db cmd.tenant_id with
    | some l => (db, some l)
    | none =>
      let db1 := ledger_create db cmd.tenant_id 0
      (db1, ledger_get_by_tenant_id db1 cmd.tenant_id)
  match fetched.2 with
  | none => (db, UCResult.err "ALLOCATE_CREDIT_FAILED")
  | some ledger =>
    let db1 := fetched.1
    let balance_before := ledger.balance
    let balance_after := balance_before + cmd.amount
    let tx : CreditTransaction :=
      { id := db1.next_tx_id
        tenant_id := cmd.tenant_id
        ledger_id := ledger.id
        transaction_type := TransactionType.allocate
        amount := cmd.amount
        balance_before := balance_before
        balance_after := balance_after
        reference_type := cmd.reference_type
        reference_id := cmd.reference_id
        idempotency_key := cmd.idempotency_key
        created_at := db1.now }
    match transaction_create db1 tx with
    | Except.error _ => (db, UCResult.err "ALLOCATE_CREDIT_FAILED")
    | Except.ok db2 =>
      let db3 := ledger_update_balance db2 ledger.id balance_after
      (db3, UCResult.ok (toAllocateCreditsResponse tx))

/-- `AllocateCredits.execute`: idempotency pre-check, then the allocate steps. -/
def AllocateCredits_execute (db : DB) (cmd : AllocateCreditsCommandDTO) :
    DB × UCResult AllocateCreditsResponseDTO :=
  match transaction_get_by_idempotency_key db cmd.idempotency_key with
  | some existing => (db, UCResult.ok (toAllocateCreditsResponse existing))
  | none => AllocateCredits_afterCheck db cmd

/-- Transaction item DTO of ListTransactions (dtos.py `TransactionDTO`). -/
structure TransactionDTO where
  id : Nat
  transaction_type : TransactionType
  amount : Int
  balance_after : Int
  reference_type : Option String
  reference_id : Option String
  created_at : Nat
deriving DecidableEq

/-- Response DTO of ListTransactions (dtos.py `ListTransactionsResponseDTO`). -/
structure ListTransactionsResponseDTO where
  transactions : List TransactionDTO
  total : Nat
  limit : Nat
  offset : Nat
deriving DecidableEq

/-- The item conversion inside `ListTransactions.execute`. -/
def toTransactionDTO (t : CreditTransaction) : TransactionDTO :=
  { id := t.id
    transaction_type := t.transaction_type
    amount := t.amount
    balance_after := t.balance_after
    reference_type := t.reference_type
    reference_id := t.reference_id
    created_at := t.created_at }

/-- `ListTransactions.execute`: paginated per-tenant history; the source
always wraps the page in `Return.ok`. -/
def ListTransactions_execute (db : DB) (tenant : String) (limit offset : Nat) :
    UCResult ListTransactionsResponseDTO :=
  let page := transaction_get_by_tenant_id db tenant limit offset
  UCResult.ok
    { transactions := page.1.map toTransactionDTO
      total := page.2
      limit := limit
      offset := offset }

/-- `ListTransactions.execute` called without explicit paging arguments: the
Python defaults are `limit = 20`, `offset = 0`. -/
def ListTransactions_executeDefault (db : DB) (tenant : String) :
    UCResult ListTransactionsResponseDTO :=
  ListTransactions_execute db tenant 20 0

/-- estimate_credit.py `STEP_COST_MATRIX`: per-step costs with the DEFAULT
bucket for unknown step types. Costs are exact fixed-point decimals; they are
embedded in tenths of a credit so that `Decimal("12.5")` stays exact:
10.0, 12.5, 15.0, 8.0, 5.0, 3.0 and 5.0 credits respectively. -/
def STEP_COST_MATRIX : List (String × Int) :=
  [("ANALYSIS", 100), ("USER_STORIES", 125), ("CODE", 150), ("TEST", 80),
   ("REVIEW", 50), ("DEPLOY", 30), ("DEFAULT", 50)]

/-- Python `str.upper` as per-character uppercasing of the string's
characters (core's `String.toUpper` computes the same list but is not
kernel-reducible). -/
def pyUpper (s : String) : String := String.mk (s.data.map Char.toUpper)

/-- Association-list lookup mimicking Python `dict.get`. -/
def costLookup (cm : List (String × Int)) (k : String) : Option Int :=
  match cm.find? (fun p => decide (p.1 = k)) with
  | some p => some p.2
  | none => none

/-- `cost_matrix.get(step_upper, cost_matrix.get("DEFAULT", Decimal("5.0")))`:
the cost of an (already uppercased) step name, falling back to the DEFAULT
bucket, and to the literal 5.0 (50 tenths) when the matrix has no DEFAULT
entry. -/
def stepCost (cm : List (String × Int)) (k : String) : Int :=
  match costLookup cm k with
  | some c => c
  | none =>
    match costLookup cm "DEFAULT" with
    | some d => d
    | none => 50

/-- Python `breakdown[k] = v` on a dict: update the value in place when the
key is present (last write wins, insertion position kept), append otherwise. -/
def dictInsert (k : String) (v : Int) (d : List (String × Int)) :
    List (String × Int) :=
  if d.any (fun p => decide (p.1 = k)) then
    d.map (fun p => if p.1 = k then (k, v) else p)
  else d ++ [(k, v)]

/-- The loop body of `EstimateCredit.execute`: fold over the pipeline steps
accumulating the breakdown dict and the running total. -/
def estimateLoop (cm : List (String × Int)) :
    List String → List (String × Int) → Int → List (String × Int) × Int
  | [], breakdown, total => (breakdown, total)
  | step :: rest, breakdown, total =>
    let k := pyUpper step
    let c := stepCost cm k
    estimateLoop cm rest (dictInsert k c breakdown) (total + c)

/-- Response DTO of EstimateCredit (dtos.py `EstimateResponseDTO`); the
breakdown dict is modelled as its insertion-ordered association list. -/
structure EstimateResponseDTO where
  estimated_credits : Int
  breakdown : List (String × Int)
deriving DecidableEq

/-- `EstimateCredit.execute`: a pure function of the step list (no database
state in its inputs); the source always wraps the result in `Return.ok`. -/
def EstimateCredit_execute (cm : List (String × Int)) (steps : List String) :
    UCResult EstimateResponseDTO :=
  let r := estimateLoop cm steps [] 0
  UCResult.ok { estimated_credits := r.2, breakdown := r.1 }

/-- Discrepancy entry of the reconciler (dtos.py `LedgerDiscrepancyDTO`). -/
structure LedgerDiscrepancyDTO where
  tenant_id : String
  ledger_id : Nat
  ledger_balance : Int
  calculated_balance : Int
  discrepancy : Int
deriving DecidableEq

/-- Result DTO of the reconciler (dtos.py `ReconciliationResultDTO`); the
wall-clock fields `reconciliation_time` and `execution_time_ms` are not
modelled. -/
structure ReconciliationResultDTO where
  total_ledgers_checked : Nat
  discrepancies_found : Nat
  discrepancies : List LedgerDiscrepancyDTO
deriving DecidableEq

/-- The per-ledger loop in the try body of `ReconcileLedger.execute`: compare
each stored balance with `get_transaction_sum_by_ledger` and collect a
discrepancy entry on mismatch. (At run time this loop is unreachable: the
`get_all` call preceding it fails, see `ledger_get_all`.) -/
def reconcileLoop (db : DB) : List CreditLedger → List LedgerDiscrepancyDTO
  | [] => []
  | l :: rest =>
    let s := get_transaction_sum_by_ledger db l.id
    if l.balance ≠ s then
      { tenant_id := l.tenant_id
        ledger_id := l.id
        ledger_balance := l.balance
        calculated_balance := s
        discrepancy := l.balance - s } :: reconcileLoop db rest
    else reconcileLoop db rest

/-- The reconciler's `self.ledger_repo.get_all()` call: no `get_all` method
exists on the `CreditLedgerRepository` interface or on
`SqlAlchemyCreditLedgerRepository`, the implementation the reconciler worker
wires in — only the unit tests attach a mock — so at run time the attribute
lookup raises AttributeError. Modelled as an always-raising call. -/
def ledger_get_all (_db : DB) : Except Unit (List CreditLedger) :=
  Except.error ()

/-- `ReconcileLedger.execute`: the try body first calls
`ledger_repo.get_all()` and would then iterate the ledgers comparing stored
balances against the transaction sums; because `get_all` does not exist
(`ledger_get_all`), every run raises at that first call, is caught by the
handler's generic `except`, and returns the wrapped RECONCILIATION_FAILED
error with the state untouched — the comparison loop and the success
response below the call are unreachable. -/
def ReconcileLedger_execute (db : DB) : DB × UCResult ReconciliationResultDTO :=
  match ledger_get_all db with
  | Except.error _ => (db, UCResult.err "RECONCILIATION_FAILED")
  | Except.ok ledgers =>
    let ds := reconcileLoop db ledgers
    (db, UCResult.ok
      { total_ledgers_checked := ledgers.length
        discrepancies_found := ds.length
        discrepancies := ds })

/-- Response DTO of the detector (dtos.py `DetectAnomaliesResponseDTO`); the
per-anomaly DTO list is modelled by the created rows themselves. -/
structure DetectAnomaliesResponseDTO where
  anomalies_detected : Nat
  anomalies : List UsageAnomaly
  period_start : Nat
  period_end : Nat
  threshold_used : Int
deriving DecidableEq

/-- The per-tenant loop of `DetectAbnormalUsage.execute`: for each
`(tenant, total_consumed)` with the total strictly above the threshold and no
anomaly already recorded for the same tenant and window, create a DETECTED
anomaly row carrying the threshold and the total. -/
def detectLoop (threshold : Int) (atype : AnomalyType) (ps pe : Nat) :
    List (String × Int) → DB → DB × List UsageAnomaly
  | [], db => (db, [])
  | (tid, total) :: rest, db =>
    if threshold < total then
      if anomaly_exists_for_tenant_period db tid ps pe then
        detectLoop threshold atype ps pe rest db
      else
        let a : UsageAnomaly :=
          { id := db.next_anomaly_id
            tenant_id := tid
            anomaly_type := atype
            status := AnomalyStatus.detected
            threshold_value := threshold
            actual_value := total
            period_start := ps
            period_end := pe
            detected_at := db.now }
        let db1 := anomaly_create db a
        let r := detectLoop threshold atype ps pe rest db1
        (r.1, a :: r.2)
    else detectLoop threshold atype ps pe rest db

/-- `DetectAbnormalUsage.execute` with an explicit window `[ps, pe)` (the
defaulting of an omitted window from the wall clock is not modelled):
aggregate consumption per tenant, create anomaly rows for the tenants above
the threshold that are not already recorded, commit once at the end. -/
def DetectAbnormalUsage_execute (db : DB) (threshold : Int)
    (atype : AnomalyType) (ps pe : Nat) :
    DB × UCResult DetectAnomaliesResponseDTO :=
  let consumption := get_consumption_by_period db ps pe
  let r := detectLoop threshold atype ps pe consumption db
  (r.1, UCResult.ok
    { anomalies_detected := r.2.length
      anomalies := r.2
      period_start := ps
      period_end := pe
      threshold_used := threshold })

/-- The per-ledger loop collects exactly the mismatching ledgers, in order,
each mapped to its discrepancy entry. -/
theorem reconcileLoop_eq_filter_map (db : DB) (ls : List CreditLedger) :
    reconcileLoop db ls =
      (ls.filter (fun l =>
        decide (l.balance ≠ get_transaction_sum_by_ledger db l.id))).map
        (fun l =>
          { tenant_id := l.tenant_id
            ledger_id := l.id
            ledger_balance := l.balance
            calculated_balance := get_transaction_sum_by_ledger db l.id
            discrepancy := l.balance - get_transaction_sum_by_ledger db l.id }) := by
  induction ls with
  | nil => rfl
  | cons l rest ih =>
    by_cases h : l.balance = get_transaction_sum_by_ledger db l.id
    · simp [reconcileLoop, h, ih]
    · simp [reconcileLoop, h, ih]

/-- A state with one mismatching ledger: stored balance 1000 against a single
ALLOCATE transaction of 900 — the reconciler, per the claim, should emit one
discrepancy `(T1, 1, 1000, 900, 100)` for it. -/
def C7_db : DB :=
  { ledgers := [{ id := 1, tenant_id := "T1", balance := 1000,
                  monthly_limit := none, created_at := 0, updated_at := 0 }],
    transactions :=
      [{ id := 1, tenant_id := "T1", ledger_id := 1,
         transaction_type := TransactionType.allocate, amount := 900,
         balance_before := 0, balance_after := 900,
         reference_type := none, reference_id := none,
         idempotency_key := "a1", created_at := 0 }],
    anomalies := [],
    next_ledger_id := 2, next_tx_id := 2, next_anomaly_id := 1, now := 1 }

/-- C7 (failing behaviour): every run of the reconciler — the mismatching
state `C7_db` included — returns the wrapped RECONCILIATION_FAILED error with
the state unchanged, because its first statement calls the non-existent
`ledger_repo.get_all()` and the AttributeError is caught by the generic
handler; it never emits the discrepancy list. The unreachable comparison
loop, run by hand on `C7_db`, would have produced exactly the one entry
`(T1, 1, 1000, 900, 100)` the claim describes. -/
theorem reconciler_always_fails :
    (∀ db : DB, ReconcileLedger_execute db =
      (db, UCResult.err "RECONCILIATION_FAILED")) ∧
    reconcileLoop C7_db C7_db.ledgers =
      [{ tenant_id := "T1", ledger_id := 1, ledger_balance := 1000,
         calculated_balance := 900, discrepancy := 100 }] :=
  ⟨fun _ => rfl, by decide⟩

/-- Spec-side definition (claim C1, §4.1 of the spec): the signed contribution
of a transaction under the ledger-balance sign convention — CONSUME
contributes minus its amount, REFUND and ALLOCATE plus their amount, ADJUST
its stored sign. -/
def specSignedContribution (t : CreditTransaction) : Int :=
  match t.transaction_type with
  | TransactionType.consume => -t.amount
  | TransactionType.refund => t.amount
  | TransactionType.allocate => t.amount
  | TransactionType.adjust => t.amount

/-- Spec-side definition (claim C1): the signed per-ledger transaction sum the
spec says `transaction.sum_by_ledger` returns. -/
def specSignedSumByLedger (db : DB) (lid : Nat) : Int :=
  ((db.transactions.filter (fun t => decide (t.ledger_id = lid))).map
    specSignedContribution).sum

/-- An empty database, as after migration. -/
def emptyDB : DB :=
  { ledgers := [], transactions := [], anomalies := [],
    next_ledger_id := 1, next_tx_id := 1, next_anomaly_id := 1, now := 0 }

/-- A state produced purely by the command handlers themselves:
Allocate(tenant T1, 100, key a1) then Consume(tenant T1, 30, key c1) starting
from the empty database. The stored ledger balance is 70 and the audit trail
is consistent with it. -/
def C1_db : DB :=
  (ConsumeCredit_execute
    (AllocateCredits_execute emptyDB
      { tenant_id := "T1", amount := 100, idempotency_key := "a1",
        reference_type := none, reference_id := none }).1
    { tenant_id := "T1", amount := 30, idempotency_key := "c1",
      reference_type := none, reference_id := none }).1

/-- C1 (failing input): on a ledger holding one ALLOCATE of 100 and one
CONSUME of 30 — written by the handlers themselves, stored balance 70 — the
signed sum of the spec's sign convention is 70, but the code's
`get_transaction_sum_by_ledger` returns 130: it sums the raw `amount` column
and CONSUME rows are stored with positive amounts, so CONSUME contributes
plus its amount instead of minus. Consequently the reconciler's comparison
loop reports a discrepancy of −60 for this perfectly consistent ledger,
contradicting the repository's own docstring ("Used for reconciliation to
compare against ledger balance") and the reconciler's inline comment
("Negative transactions (CONSUME, ADJUST-) subtract from balance"). -/
theorem sum_by_ledger_ignores_sign_convention :
    (ledger_get_by_tenant_id C1_db "T1").map (fun l => l.balance) = some 70 ∧
    specSignedSumByLedger C1_db 1 = 70 ∧
    get_transaction_sum_by_ledger C1_db 1 = 130 ∧
    reconcileLoop C1_db C1_db.ledgers =
      [{ tenant_id := "T1", ledger_id := 1, ledger_balance := 70,
         calculated_balance := 130, discrepancy := -60 }] := by
  refine ⟨by decide, by decide, by decide, by decide⟩

/-- The storage invariant enforced by the unique constraint: the idempotency
keys of the transaction rows are pairwise distinct. -/
def keysNodup (db : DB) : Prop :=
  (db.transactions.map (fun t => t.idempotency_key)).Nodup

/-- Appending a row whose idempotency key passed the duplicate check keeps the
keys pairwise distinct. -/
theorem keysNodup_concat {l : List CreditTransaction} {tx : CreditTransaction}
    (h : (l.map (fun t => t.idempotency_key)).Nodup)
    (hna : l.any (fun t => decide (t.idempotency_key = tx.idempotency_key)) = false) :
    ((l ++ [tx]).map (fun t => t.idempotency_key)).Nodup := by
  rw [List.map_append, List.nodup_append]
  refine ⟨h, by simp, ?_⟩
  intro k hk hk2
  simp only [List.map_cons, List.map_nil, List.mem_singleton] at hk2
  rcases List.mem_map.mp hk with ⟨t, ht, rfl⟩
  rw [List.any_eq_false] at hna
  exact absurd (by simpa using hk2) (by simpa using hna t ht)

/-- Steps 2–8 of Consume preserve key uniqueness: every path either leaves the
transaction table unchanged or appends a row that passed the duplicate check. -/
theorem consume_afterCheck_keysNodup (db : DB) (cmd : ConsumeCommandDTO)
    (h : keysNodup db) : keysNodup (ConsumeCredit_afterCheck db cmd).1 := by
  unfold ConsumeCredit_afterCheck
  cases hl : ledger_get_by_tenant_id db cmd.tenant_id with
  | none => exact h
  | some ledger =>
    by_cases hb : ledger.balance < cmd.amount
    · simp only [hb, if_true]
      exact h
    · simp only [hb, if_false]
      unfold transaction_create
      by_cases hdup : db.transactions.any
          (fun t => decide (t.idempotency_key = cmd.idempotency_key)) = true
      · simp only [hdup, if_true]
        exact h
      · rw [Bool.not_eq_true] at hdup
        simp only [hdup]
        simp only [Bool.false_eq_true, if_false]
        exact keysNodup_concat h hdup

/-- Steps 2–8 of Refund preserve key uniqueness. -/
theorem refund_afterCheck_keysNodup (db : DB) (cmd : ConsumeCommandDTO)
    (h : keysNodup db) : keysNodup (RefundCredit_afterCheck db cmd).1 := by
  unfold RefundCredit_afterCheck
  cases hl : ledger_get_by_tenant_id db cmd.tenant_id with
  | none => exact h
  | some ledger =>
    unfold transaction_create
    by_cases hdup : db.transactions.any
        (fun t => decide (t.idempotency_key = cmd.idempotency_key)) = true
    · simp only [hdup, if_true]
      exact h
    · rw [Bool.not_eq_true] at hdup
      simp only [hdup, Bool.false_eq_true, if_false]
      exact keysNodup_concat h hdup

/-- Steps 2–7 of Allocate preserve key uniqueness (the ledger creation does
not touch the transaction table). -/
theorem allocate_afterCheck_keysNodup (db : DB) (cmd : AllocateCreditsCommandDTO)
    (h : keysNodup db) : keysNodup (AllocateCredits_afterCheck db cmd).1 := by
  unfold AllocateCredits_afterCheck
  cases hl : ledger_get_by_tenant_id db cmd.tenant_id with
  | some ledger =>
    simp only [hl]
    unfold transaction_create
    by_cases hdup : db.transactions.any
        (fun t => decide (t.idempotency_key = cmd.idempotency_key)) = true
    · simp only [hdup, if_true]
      exact h
    · rw [Bool.not_eq_true] at hdup
      simp only [hdup, Bool.false_eq_true, if_false]
      exact keysNodup_concat h hdup
  | none =>
    simp only [hl]
    cases hre : ledger_get_by_tenant_id (ledger_create db cmd.tenant_id 0) cmd.tenant_id with
    | none => simp only [hre]; exact h
    | some ledger =>
      simp only [hre]
      unfold transaction_create
      by_cases hdup : (ledger_create db cmd.tenant_id 0).transactions.any
          (fun t => decide (t.idempotency_key = cmd.idempotency_key)) = true
      · simp only [hdup, if_true]
        exact h
      · rw [Bool.not_eq_true] at hdup
        simp only [hdup, Bool.false_eq_true, if_false]
        exact keysNodup_concat h hdup

/-- C2: idempotency is strict. At most one transaction row per idempotency key
ever exists (every handler preserves pairwise-distinct keys), and any
submission whose key already has a row returns the response built from that
stored row — `balance_before` / `balance_after` are the snapshots stored in
the row, not recomputed — with no mutation and no commit: the returned state
is exactly the submitted state. -/
theorem idempotency_strict :
    (∀ (db : DB) (cmd : ConsumeCommandDTO) (t : CreditTransaction),
      transaction_get_by_idempotency_key db cmd.idempotency_key = some t →
      ConsumeCredit_execute db cmd =
        (db, UCResult.ok (toCreditTransactionResponse t)) ∧
      (toCreditTransactionResponse t).balance_before = t.balance_before ∧
      (toCreditTransactionResponse t).balance_after = t.balance_after) ∧
    (∀ (db : DB) (cmd : ConsumeCommandDTO) (t : CreditTransaction),
      transaction_get_by_idempotency_key db cmd.idempotency_key = some t →
      RefundCredit_execute db cmd =
        (db, UCResult.ok (toCreditTransactionResponse t))) ∧
    (∀ (db : DB) (cmd : AllocateCreditsCommandDTO) (t : CreditTransaction),
      transaction_get_by_idempotency_key db cmd.idempotency_key = some t →
      AllocateCredits_execute db cmd =
        (db, UCResult.ok (toAllocateCreditsResponse t)) ∧
      (toAllocateCreditsResponse t).balance_before = t.balance_before ∧
      (toAllocateCreditsResponse t).balance_after = t.balance_after) ∧
    (∀ (db : DB) (cmd : ConsumeCommandDTO),
      keysNodup db → keysNodup (ConsumeCredit_execute db cmd).1) ∧
    (∀ (db : DB) (cmd : ConsumeCommandDTO),
      keysNodup db → keysNodup (RefundCredit_execute db cmd).1) ∧
    (∀ (db : DB) (cmd : AllocateCreditsCommandDTO),
      keysNodup db → keysNodup (AllocateCredits_execute db cmd).1) := by
  refine ⟨?_, ?_, ?_, ?_, ?_, ?_⟩
  · intro db cmd t ht
    exact ⟨by unfold ConsumeCredit_execute; rw [ht], rfl, rfl⟩
  · intro db cmd t ht
    unfold RefundCredit_execute; rw [ht]
  · intro db cmd t ht
    exact ⟨by unfold AllocateCredits_execute; rw [ht], rfl, rfl⟩
  · intro db cmd h
    unfold ConsumeCredit_execute
    cases ht : transaction_get_by_idempotency_key db cmd.idempotency_key with
    | some t => exact h
    | none => exact consume_afterCheck_keysNodup db cmd h
  · intro db cmd h
    unfold RefundCredit_execute
    cases ht : transaction_get_by_idempotency_key db cmd.idempotency_key with
    | some t => exact h
    | none => exact refund_afterCheck_keysNodup db cmd h
  · intro db cmd h
    unfold AllocateCredits_execute
    cases ht : transaction_get_by_idempotency_key db cmd.idempotency_key with
    | some t => exact h
    | none => exact allocate_afterCheck_keysNodup db cmd h

/-- The ALLOCATE transaction row written into `C1_db` by the first command. -/
def a1_tx : CreditTransaction :=
  { id := 1, tenant_id := "T1", ledger_id := 1,
    transaction_type := TransactionType.allocate, amount := 100,
    balance_before := 0, balance_after := 100,
    reference_type := none, reference_id := none,
    idempotency_key := "a1", created_at := 0 }

/-- Witness for C2: replaying key `a1` against the two-transaction state
returns the stored allocate row's snapshot with the state unchanged. -/
theorem idempotency_strict_witness :
    AllocateCredits_execute C1_db
      { tenant_id := "T1", amount := 100, idempotency_key := "a1",
        reference_type := none, reference_id := none } =
      (C1_db, UCResult.ok (toAllocateCreditsResponse a1_tx)) :=
  (idempotency_strict.2.2.1 C1_db
    { tenant_id := "T1", amount := 100, idempotency_key := "a1",
      reference_type := none, reference_id := none } a1_tx (by decide)).1

/-- C10 (implicit): the step-1 idempotency pre-check of every command handler
matches on the idempotency key alone. When a row already exists under the
submitted key, the handler returns a success response built from that stored
row even when the row belongs to a different tenant and has a different
transaction type than the submitted command — nothing ties the key to the
command's tenant, amount or operation. -/
theorem idempotency_matches_key_alone :
    (∀ (db : DB) (t : CreditTransaction) (cmd : ConsumeCommandDTO),
      transaction_get_by_idempotency_key db cmd.idempotency_key = some t →
      t.tenant_id ≠ cmd.tenant_id →
      t.transaction_type ≠ TransactionType.consume →
      ConsumeCredit_execute db cmd =
        (db, UCResult.ok (toCreditTransactionResponse t))) ∧
    (∀ (db : DB) (t : CreditTransaction) (cmd : ConsumeCommandDTO),
      transaction_get_by_idempotency_key db cmd.idempotency_key = some t →
      t.tenant_id ≠ cmd.tenant_id →
      t.transaction_type ≠ TransactionType.refund →
      RefundCredit_execute db cmd =
        (db, UCResult.ok (toCreditTransactionResponse t))) ∧
    (∀ (db : DB) (t : CreditTransaction) (cmd : AllocateCreditsCommandDTO),
      transaction_get_by_idempotency_key db cmd.idempotency_key = some t →
      t.tenant_id ≠ cmd.tenant_id →
      t.transaction_type ≠ TransactionType.allocate →
      AllocateCredits_execute db cmd =
        (db, UCResult.ok (toAllocateCreditsResponse t))) := by
  refine ⟨?_, ?_, ?_⟩
  · intro db t cmd ht _ _
    unfold ConsumeCredit_execute; rw [ht]
  · intro db t cmd ht _ _
    unfold RefundCredit_execute; rw [ht]
  · intro db t cmd ht _ _
    unfold AllocateCredits_execute; rw [ht]

/-- Witness for C10: a Consume command from tenant `T2` under key `a1` — a key
whose stored row is an ALLOCATE for tenant `T1` — is answered with a success
response built from that foreign allocate row, the state unchanged. -/
theorem idempotency_matches_key_alone_witness :
    a1_tx.tenant_id ≠ "T2" ∧
    a1_tx.transaction_type ≠ TransactionType.consume ∧
    ConsumeCredit_execute C1_db
      { tenant_id := "T2", amount := 5, idempotency_key := "a1",
        reference_type := none, reference_id := none } =
      (C1_db, UCResult.ok (toCreditTransactionResponse a1_tx)) :=
  ⟨by decide, by decide,
    idempotency_matches_key_alone.1 C1_db a1_tx
      { tenant_id := "T2", amount := 5, idempotency_key := "a1",
        reference_type := none, reference_id := none }
      (by decide) (by decide) (by decide)⟩

/-- A key the step-1 pre-check did not find also passes the unique-constraint
check of the insert: no concurrent writer exists in the sequential model. -/
theorem any_key_false_of_fresh {db : DB} {k : String}
    (h : transaction_get_by_idempotency_key db k = none) :
    db.transactions.any (fun t => decide (t.idempotency_key = k)) = false := by
  unfold transaction_get_by_idempotency_key at h
  rw [List.find?_eq_none] at h
  rw [List.any_eq_false]
  intro t ht
  simpa using h t ht

/-- C3: a Consume with a fresh idempotency key against an existing ledger
fails with INSUFFICIENT_CREDIT if and only if the stored balance is below the
amount; on that failure the state — transaction rows and ledger balance — is
exactly the initial state, and on success the response snapshots satisfy
`balance_after = balance_before − amount ≥ 0`. -/
theorem consume_insufficient_iff (db : DB) (cmd : ConsumeCommandDTO)
    (l : CreditLedger)
    (hfresh : transaction_get_by_idempotency_key db cmd.idempotency_key = none)
    (hl : ledger_get_by_tenant_id db cmd.tenant_id = some l) :
    (((ConsumeCredit_execute db cmd).2 = UCResult.err "INSUFFICIENT_CREDIT") ↔
      l.balance < cmd.amount) ∧
    (l.balance < cmd.amount → (ConsumeCredit_execute db cmd).1 = db) ∧
    (cmd.amount ≤ l.balance →
      ∃ db2 resp, ConsumeCredit_execute db cmd = (db2, UCResult.ok resp) ∧
        resp.balance_before = l.balance ∧
        resp.balance_after = l.balance - cmd.amount ∧
        0 ≤ resp.balance_after) := by
  have hrun : ConsumeCredit_execute db cmd = ConsumeCredit_afterCheck db cmd := by
    unfold ConsumeCredit_execute; rw [hfresh]
  by_cases hb : l.balance < cmd.amount
  · have hres : ConsumeCredit_afterCheck db cmd =
        (db, UCResult.err "INSUFFICIENT_CREDIT") := by
      unfold ConsumeCredit_afterCheck
      rw [hl]
      simp [hb]
    refine ⟨?_, ?_, ?_⟩
    · rw [hrun, hres]
      simp [hb]
    · intro _
      rw [hrun, hres]
    · intro hle
      exact absurd hb (not_lt.mpr hle)
  · have hcreate := any_key_false_of_fresh hfresh
    have hres : ∃ db2 resp, ConsumeCredit_afterCheck db cmd =
        (db2, UCResult.ok resp) ∧
        resp.balance_before = l.balance ∧
        resp.balance_after = l.balance - cmd.amount := by
      unfold ConsumeCredit_afterCheck
      rw [hl]
      simp only [hb, if_false]
      unfold transaction_create
      rw [hcreate]
      simp only [Bool.false_eq_true, if_false]
      exact ⟨_, _, rfl, rfl, rfl⟩
    rcases hres with ⟨db2, resp, hres, hbb, hba⟩
    refine ⟨?_, ?_, ?_⟩
    · rw [hrun, hres]
      simp only [hb, iff_false]
      intro hcontra
      exact UCResult.noConfusion hcontra
    · intro hcontra
      exact absurd hcontra hb
    · intro hle
      refine ⟨db2, resp, by rw [hrun, hres], hbb, hba, ?_⟩
      rw [hba]
      omega

/-- Witness for C3: from the two-transaction state with balance 70, a fresh
Consume of 200 is the insufficient case and a fresh Consume of 70 (the exact
balance) succeeds with `balance_after = 0`. -/
theorem consume_insufficient_iff_witness :
    ((ConsumeCredit_execute C1_db
        { tenant_id := "T1", amount := 200, idempotency_key := "k9",
          reference_type := none, reference_id := none }).2 =
      UCResult.err "INSUFFICIENT_CREDIT") ∧
    (ConsumeCredit_execute C1_db
        { tenant_id := "T1", amount := 200, idempotency_key := "k9",
          reference_type := none, reference_id := none }).1 = C1_db ∧
    ∃ db2 resp, ConsumeCredit_execute C1_db
        { tenant_id := "T1", amount := 70, idempotency_key := "k9",
          reference_type := none, reference_id := none } =
        (db2, UCResult.ok resp) ∧
      resp.balance_before = 70 ∧ resp.balance_after = 0 ∧ 0 ≤ resp.balance_after := by
  refine ⟨?_, ?_, ?_⟩
  · exact (consume_insufficient_iff C1_db
      { tenant_id := "T1", amount := 200, idempotency_key := "k9",
        reference_type := none, reference_id := none }
      { id := 1, tenant_id := "T1", balance := 70, monthly_limit := none,
        created_at := 0, updated_at := 0 }
      (by decide) (by decide)).1.mpr (by decide)
  · exact (consume_insufficient_iff C1_db
      { tenant_id := "T1", amount := 200, idempotency_key := "k9",
        reference_type := none, reference_id := none }
      { id := 1, tenant_id := "T1", balance := 70, monthly_limit := none,
        created_at := 0, updated_at := 0 }
      (by decide) (by decide)).2.1 (by decide)
  · rcases (consume_insufficient_iff C1_db
      { tenant_id := "T1", amount := 70, idempotency_key := "k9",
        reference_type := none, reference_id := none }
      { id := 1, tenant_id := "T1", balance := 70, monthly_limit := none,
        created_at := 0, updated_at := 0 }
      (by decide) (by decide)).2.2 (by decide) with ⟨db2, resp, heq, h1, h2, h3⟩
    exact ⟨db2, resp, heq, by rw [h1], by rw [h2]; decide, h3⟩

/-- The CONSUME transaction row written into `C1_db` by the second command. -/
def c1_tx : CreditTransaction :=
  { id := 2, tenant_id := "T1", ledger_id := 1,
    transaction_type := TransactionType.consume, amount := 30,
    balance_before := 100, balance_after := 70,
    reference_type := none, reference_id := none,
    idempotency_key := "c1", created_at := 0 }

/-- Counterexample to C4. A handler that lost the duplicate-key race runs
steps 2–8 (`ConsumeCredit_afterCheck`, everything after its step-1 pre-check
saw no row) against a state in which the race winner has already committed
the row under the same key. On the concrete state `C1_db`, whose key `c1` is
taken by the winner's CONSUME row, the loser's insert hits the unique
constraint and the handler returns the wrapped error CONSUME_CREDIT_FAILED —
it does not retry from step 1 and does not return a success response built
from the winner's snapshot, contrary to the claim. -/
theorem duplicate_key_race_cex :
    transaction_get_by_idempotency_key C1_db "c1" = some c1_tx ∧
    ConsumeCredit_afterCheck C1_db
      { tenant_id := "T1", amount := 30, idempotency_key := "c1",
        reference_type := none, reference_id := none } =
      (C1_db, UCResult.err "CONSUME_CREDIT_FAILED") := by
  refine ⟨by decide, by decide⟩

/-- C4 as amended: a duplicate-key conflict at transaction-create time is
surfaced as a wrapped error, not retried. Whenever a row already holds the
command's idempotency key while steps 2–8 run (the lost race), the insert's
IntegrityError is caught by the generic handler, the scope is rolled back
(the returned state is the initial state), and the command returns the
wrapped CONSUME_CREDIT_FAILED / REFUND_CREDIT_FAILED / ALLOCATE_CREDIT_FAILED
error. (For Consume the conflict is reached when the ledger exists and the
balance suffices; for Refund when the ledger exists; for Allocate always.) -/
theorem duplicate_key_wrapped_failure :
    (∀ (db : DB) (cmd : ConsumeCommandDTO) (l : CreditLedger),
      db.transactions.any
        (fun t => decide (t.idempotency_key = cmd.idempotency_key)) = true →
      ledger_get_by_tenant_id db cmd.tenant_id = some l →
      ¬ l.balance < cmd.amount →
      ConsumeCredit_afterCheck db cmd =
        (db, UCResult.err "CONSUME_CREDIT_FAILED")) ∧
    (∀ (db : DB) (cmd : ConsumeCommandDTO) (l : CreditLedger),
      db.transactions.any
        (fun t => decide (t.idempotency_key = cmd.idempotency_key)) = true →
      ledger_get_by_tenant_id db cmd.tenant_id = some l →
      RefundCredit_afterCheck db cmd =
        (db, UCResult.err "REFUND_CREDIT_FAILED")) ∧
    (∀ (db : DB) (cmd : AllocateCreditsCommandDTO),
      db.transactions.any
        (fun t => decide (t.idempotency_key = cmd.idempotency_key)) = true →
      AllocateCredits_afterCheck db cmd =
        (db, UCResult.err "ALLOCATE_CREDIT_FAILED")) := by
  refine ⟨?_, ?_, ?_⟩
  · intro db cmd l hdup hl hb
    unfold ConsumeCredit_afterCheck
    rw [hl]
    simp only [hb, if_false]
    unfold transaction_create
    rw [hdup]
    simp
  · intro db cmd l hdup hl
    unfold RefundCredit_afterCheck
    rw [hl]
    simp [transaction_create, hdup]
  · intro db cmd hdup
    unfold AllocateCredits_afterCheck
    cases hl : ledger_get_by_tenant_id db cmd.tenant_id with
    | some l =>
      simp only [hl]
      simp [transaction_create, hdup]
    | none =>
      simp only [hl]
      cases hre : ledger_get_by_tenant_id (ledger_create db cmd.tenant_id 0)
          cmd.tenant_id with
      | none => simp only [hre]
      | some l =>
        simp only [hre]
        have hdup2 : (ledger_create db cmd.tenant_id 0).transactions.any
            (fun t => decide (t.idempotency_key = cmd.idempotency_key)) = true := hdup
        simp [transaction_create, hdup2]

/-- Witness for the amended C4: on `C1_db` a Refund that lost the race for key
`a1` returns the wrapped REFUND_CREDIT_FAILED error with the state unchanged. -/
theorem duplicate_key_wrapped_failure_witness :
    RefundCredit_afterCheck C1_db
      { tenant_id := "T1", amount := 10, idempotency_key := "a1",
        reference_type := none, reference_id := none } =
      (C1_db, UCResult.err "REFUND_CREDIT_FAILED") :=
  duplicate_key_wrapped_failure.2.1 C1_db
    { tenant_id := "T1", amount := 10, idempotency_key := "a1",
      reference_type := none, reference_id := none }
    { id := 1, tenant_id := "T1", balance := 70, monthly_limit := none,
      created_at := 0, updated_at := 0 }
    (by decide) (by decide)

/-- Re-fetching the tenant's ledger right after creating it (the Allocate
step-2 sequence when the ledger was absent) returns the created row. -/
theorem ledger_refetch_after_create (db : DB) (tenant : String) (b : Int)
    (h : ledger_get_by_tenant_id db tenant = none) :
    ledger_get_by_tenant_id (ledger_create db tenant b) tenant =
      some { id := db.next_ledger_id, tenant_id := tenant, balance := b,
             monthly_limit := none, created_at := db.now, updated_at := db.now } := by
  unfold ledger_get_by_tenant_id at h ⊢
  unfold ledger_create
  rw [List.find?_append, h]
  simp [List.find?]

/-- Looking a tenant up after `update_balance` on its ledger row returns the
row with the new balance. -/
theorem find?_tenant_map_update (ls : List CreditLedger) (tenant : String)
    (lid : Nat) (nb : Int) (now : Nat) (l : CreditLedger)
    (h : ls.find? (fun x => decide (x.tenant_id = tenant)) = some l)
    (hid : l.id = lid) :
    (ls.map (fun x =>
      if x.id = lid then { x with balance := nb, updated_at := now }
      else x)).find? (fun x => decide (x.tenant_id = tenant)) =
      some { l with balance := nb, updated_at := now } := by
  rw [List.find?_map]
  have hp : ((fun x : CreditLedger => decide (x.tenant_id = tenant)) ∘
      (fun x : CreditLedger =>
        if x.id = lid then { x with balance := nb, updated_at := now }
        else x)) = (fun x : CreditLedger => decide (x.tenant_id = tenant)) := by
    funext x
    by_cases hx : x.id = lid <;> simp [hx]
  rw [hp, h]
  simp [hid]

/-- C5: Allocate is the only operation that creates a ledger. A fresh Allocate
for a tenant with no ledger creates one with balance 0, completes against it
and returns `balance_before = 0`, `balance_after = amount`, leaving the
tenant with a ledger whose balance is the amount; a fresh Consume or Refund
for a tenant with no ledger fails with LEDGER_NOT_FOUND and leaves the state
unchanged. -/
theorem allocate_creates_ledger :
    (∀ (db : DB) (cmd : AllocateCreditsCommandDTO),
      transaction_get_by_idempotency_key db cmd.idempotency_key = none →
      ledger_get_by_tenant_id db cmd.tenant_id = none →
      ∃ db2 resp, AllocateCredits_execute db cmd = (db2, UCResult.ok resp) ∧
        resp.balance_before = 0 ∧ resp.balance_after = cmd.amount ∧
        ∃ l2, ledger_get_by_tenant_id db2 cmd.tenant_id = some l2 ∧
          l2.balance = cmd.amount) ∧
    (∀ (db : DB) (cmd : ConsumeCommandDTO),
      transaction_get_by_idempotency_key db cmd.idempotency_key = none →
      ledger_get_by_tenant_id db cmd.tenant_id = none →
      ConsumeCredit_execute db cmd = (db, UCResult.err "LEDGER_NOT_FOUND")) ∧
    (∀ (db : DB) (cmd : ConsumeCommandDTO),
      transaction_get_by_idempotency_key db cmd.idempotency_key = none →
      ledger_get_by_tenant_id db cmd.tenant_id = none →
      RefundCredit_execute db cmd = (db, UCResult.err "LEDGER_NOT_FOUND")) := by
  refine ⟨?_, ?_, ?_⟩
  · intro db cmd hfresh hl
    have hrun : AllocateCredits_execute db cmd = AllocateCredits_afterCheck db cmd := by
      unfold AllocateCredits_execute; rw [hfresh]
    have hre := ledger_refetch_after_create db cmd.tenant_id 0 hl
    have hcr2 : (ledger_create db cmd.tenant_id 0).transactions.any
        (fun t => decide (t.idempotency_key = cmd.idempotency_key)) = false :=
      any_key_false_of_fresh hfresh
    rw [hrun]
    unfold AllocateCredits_afterCheck
    simp only [hl, hre, transaction_create, hcr2, Bool.false_eq_true, if_false]
    refine ⟨_, _, rfl, rfl, by exact zero_add cmd.amount, ?_⟩
    have hlook := find?_tenant_map_update
      ((ledger_create db cmd.tenant_id 0).ledgers) cmd.tenant_id
      db.next_ledger_id (0 + cmd.amount) db.now
      { id := db.next_ledger_id, tenant_id := cmd.tenant_id, balance := 0,
        monthly_limit := none, created_at := db.now, updated_at := db.now }
      hre rfl
    exact ⟨_, hlook, by simp⟩
  · intro db cmd hfresh hl
    unfold ConsumeCredit_execute
    rw [hfresh]
    unfold ConsumeCredit_afterCheck
    rw [hl]
  · intro db cmd hfresh hl
    unfold RefundCredit_execute
    rw [hfresh]
    unfold RefundCredit_afterCheck
    rw [hl]

/-- Witness for C5: a fresh Allocate of 10000 for tenant `T9` on the empty
database creates the ledger and returns snapshots 0 and 10000, while a fresh
Consume and a fresh Refund for `T9` on the empty database fail with
LEDGER_NOT_FOUND. -/
theorem allocate_creates_ledger_witness :
    (∃ db2 resp, AllocateCredits_execute emptyDB
        { tenant_id := "T9", amount := 10000,
          idempotency_key := "allocation:T9:2024-01",
          reference_type := none, reference_id := none } =
        (db2, UCResult.ok resp) ∧
      resp.balance_before = 0 ∧ resp.balance_after = 10000 ∧
      ∃ l2, ledger_get_by_tenant_id db2 "T9" = some l2 ∧ l2.balance = 10000) ∧
    ConsumeCredit_execute emptyDB
      { tenant_id := "T9", amount := 5, idempotency_key := "k1",
        reference_type := none, reference_id := none } =
      (emptyDB, UCResult.err "LEDGER_NOT_FOUND") ∧
    RefundCredit_execute emptyDB
      { tenant_id := "T9", amount := 5, idempotency_key := "k1",
        reference_type := none, reference_id := none } =
      (emptyDB, UCResult.err "LEDGER_NOT_FOUND") :=
  ⟨allocate_creates_ledger.1 emptyDB
      { tenant_id := "T9", amount := 10000,
        idempotency_key := "allocation:T9:2024-01",
        reference_type := none, reference_id := none }
      (by decide) (by decide),
    allocate_creates_ledger.2.1 emptyDB
      { tenant_id := "T9", amount := 5, idempotency_key := "k1",
        reference_type := none, reference_id := none }
      (by decide) (by decide),
    allocate_creates_ledger.2.2 emptyDB
      { tenant_id := "T9", amount := 5, idempotency_key := "k1",
        reference_type := none, reference_id := none }
      (by decide) (by decide)⟩

/-- Membership in a stable descending insertion. -/
theorem mem_insertByCreatedAtDesc {y x : CreditTransaction}
    {l : List CreditTransaction} :
    y ∈ insertByCreatedAtDesc x l ↔ y = x ∨ y ∈ l := by
  induction l with
  | nil => simp [insertByCreatedAtDesc]
  | cons z zs ih =>
    by_cases h : x.created_at < z.created_at
    · simp only [insertByCreatedAtDesc, h, if_true, List.mem_cons, ih]
      tauto
    · simp only [insertByCreatedAtDesc, h, if_false, List.mem_cons]

/-- Stable descending insertion preserves sortedness by `created_at`. -/
theorem pairwise_insertByCreatedAtDesc {x : CreditTransaction}
    {l : List CreditTransaction}
    (h : l.Pairwise (fun a b => b.created_at ≤ a.created_at)) :
    (insertByCreatedAtDesc x l).Pairwise
      (fun a b => b.created_at ≤ a.created_at) := by
  induction l with
  | nil => simp [insertByCreatedAtDesc]
  | cons z zs ih =>
    rcases List.pairwise_cons.mp h with ⟨hz, hzs⟩
    by_cases hlt : x.created_at < z.created_at
    · simp only [insertByCreatedAtDesc, hlt, if_true]
      refine List.pairwise_cons.mpr ⟨?_, ih hzs⟩
      intro b hb
      rcases mem_insertByCreatedAtDesc.mp hb with rfl | hb2
      · exact le_of_lt hlt
      · exact hz b hb2
    · simp only [insertByCreatedAtDesc, hlt, if_false]
      refine List.pairwise_cons.mpr ⟨?_, h⟩
      intro b hb
      rcases List.mem_cons.mp hb with rfl | hb2
      · exact not_lt.mp hlt
      · exact le_trans (hz b hb2) (not_lt.mp hlt)

/-- The stable sort is sorted by `created_at` descending. -/
theorem pairwise_sortByCreatedAtDesc (l : List CreditTransaction) :
    (sortByCreatedAtDesc l).Pairwise (fun a b => b.created_at ≤ a.created_at) := by
  induction l with
  | nil => simp [sortByCreatedAtDesc]
  | cons x xs ih => exact pairwise_insertByCreatedAtDesc ih

/-- The stable sort is a permutation in the membership sense. -/
theorem mem_sortByCreatedAtDesc {y : CreditTransaction}
    {l : List CreditTransaction} :
    y ∈ sortByCreatedAtDesc l ↔ y ∈ l := by
  induction l with
  | nil => simp [sortByCreatedAtDesc]
  | cons x xs ih =>
    simp only [sortByCreatedAtDesc, mem_insertByCreatedAtDesc, List.mem_cons, ih]

/-- The ordering the claim asserts for ListTransactions items: `created_at`
descending with a stable tie-break by `id` descending. -/
def orderedNewestFirstIdDesc (l : List TransactionDTO) : Prop :=
  l.Pairwise (fun a b =>
    b.created_at < a.created_at ∨
    (a.created_at = b.created_at ∧ b.id < a.id))

/-- Two transactions of tenant `T1` written at the same tick, table order
id 1 then id 2. -/
def tieA : CreditTransaction :=
  { id := 1, tenant_id := "T1", ledger_id := 1,
    transaction_type := TransactionType.consume, amount := 10,
    balance_before := 100, balance_after := 90,
    reference_type := none, reference_id := none,
    idempotency_key := "t1", created_at := 5 }

/-- The second equal-timestamp transaction (id 2). -/
def tieB : CreditTransaction :=
  { id := 2, tenant_id := "T1", ledger_id := 1,
    transaction_type := TransactionType.consume, amount := 10,
    balance_before := 90, balance_after := 80,
    reference_type := none, reference_id := none,
    idempotency_key := "t2", created_at := 5 }

/-- Database with two equal-`created_at` transactions for one tenant. -/
def C8_db : DB :=
  { ledgers := [{ id := 1, tenant_id := "T1", balance := 80,
                  monthly_limit := none, created_at := 0, updated_at := 9 }],
    transactions := [tieA, tieB],
    anomalies := [],
    next_ledger_id := 2, next_tx_id := 3, next_anomaly_id := 1, now := 9 }

/-- Counterexample to C8. The repository orders by `created_at` descending
only — the source has no `id` tie-break — so on two rows with equal
`created_at` (table order id 1 then id 2) the returned page keeps table
order `[id 1, id 2]`, which violates the claimed stable tie-break by `id`
descending (that would require `[id 2, id 1]`). -/
theorem listTransactions_tiebreak_cex :
    ListTransactions_execute C8_db "T1" 20 0 = UCResult.ok
      { transactions := [toTransactionDTO tieA, toTransactionDTO tieB],
        total := 2, limit := 20, offset := 0 } ∧
    ¬ orderedNewestFirstIdDesc [toTransactionDTO tieA, toTransactionDTO tieB] := by
  constructor
  · decide
  · unfold orderedNewestFirstIdDesc
    decide

/-- C8 as amended: ListTransactions returns the tenant's transactions ordered
by `created_at` descending — ties keep table order, there is no `id`
tie-break — together with `total` equal to the unfiltered transaction count
for the tenant, the requested `limit` and `offset` echoed back, and Python
defaults `limit = 20`, `offset = 0`. -/
theorem listTransactions_page (db : DB) (tenant : String) (limit offset : Nat) :
    ∃ r, ListTransactions_execute db tenant limit offset = UCResult.ok r ∧
      r.total = (db.transactions.filter
        (fun t => decide (t.tenant_id = tenant))).length ∧
      r.limit = limit ∧ r.offset = offset ∧
      r.transactions.Pairwise (fun a b => b.created_at ≤ a.created_at) ∧
      (∀ d ∈ r.transactions, ∃ t, t ∈ db.transactions ∧ t.tenant_id = tenant ∧
        toTransactionDTO t = d) ∧
      ListTransactions_executeDefault db tenant =
        ListTransactions_execute db tenant 20 0 := by
  refine ⟨_, rfl, rfl, rfl, rfl, ?_, ?_, rfl⟩
  · exact List.pairwise_map.mpr
      (List.Pairwise.sublist
        ((List.take_sublist _ _).trans (List.drop_sublist _ _))
        (pairwise_sortByCreatedAtDesc _))
  · intro d hd
    rcases List.mem_map.mp hd with ⟨t, ht, rfl⟩
    have ht2 : t ∈ sortByCreatedAtDesc
        (db.transactions.filter (fun t => decide (t.tenant_id = tenant))) :=
      (List.take_subset _ _).trans (List.drop_subset _ _) ht
    have ht3 := mem_sortByCreatedAtDesc.mp ht2
    rcases List.mem_filter.mp ht3 with ⟨ht4, ht5⟩
    exact ⟨t, ht4, of_decide_eq_true ht5, rfl⟩

/-- Witness for the amended C8 at the concrete two-row state. -/
theorem listTransactions_page_witness :
    ∃ r, ListTransactions_execute C8_db "T1" 20 0 = UCResult.ok r ∧
      r.total = (C8_db.transactions.filter
        (fun t => decide (t.tenant_id = "T1"))).length ∧
      r.limit = 20 ∧ r.offset = 0 ∧
      r.transactions.Pairwise (fun a b => b.created_at ≤ a.created_at) ∧
      (∀ d ∈ r.transactions, ∃ t, t ∈ C8_db.transactions ∧ t.tenant_id = "T1" ∧
        toTransactionDTO t = d) ∧
      ListTransactions_executeDefault C8_db "T1" =
        ListTransactions_execute C8_db "T1" 20 0 :=
  listTransactions_page C8_db "T1" 20 0

/-- Keys of the breakdown dict after a Python-style insert. -/
theorem dictInsert_mem_keys (k0 k : String) (v : Int) (d : List (String × Int)) :
    k0 ∈ (dictInsert k v d).map Prod.fst ↔ k0 = k ∨ k0 ∈ d.map Prod.fst := by
  unfold dictInsert
  by_cases hp : d.any (fun p => decide (p.1 = k)) = true
  · rw [if_pos hp]
    have hkeys : (d.map (fun p => if p.1 = k then (k, v) else p)).map Prod.fst =
        d.map Prod.fst := by
      rw [List.map_map]
      refine List.map_congr_left ?_
      intro p _
      by_cases hpk : p.1 = k <;> simp [hpk]
    rw [hkeys]
    rcases List.any_eq_true.mp hp with ⟨p, hpd, hpk⟩
    have hkmem : k ∈ d.map Prod.fst :=
      List.mem_map.mpr ⟨p, hpd, of_decide_eq_true hpk⟩
    constructor
    · exact fun h => Or.inr h
    · rintro (rfl | h)
      · exact hkmem
      · exact h
  · rw [if_neg hp]
    simp only [List.map_append, List.map_cons, List.map_nil, List.mem_append,
      List.mem_singleton]
    tauto

/-- A Python-style dict insert keeps the keys pairwise distinct. -/
theorem dictInsert_keys_nodup (k : String) (v : Int) (d : List (String × Int))
    (h : (d.map Prod.fst).Nodup) :
    ((dictInsert k v d).map Prod.fst).Nodup := by
  unfold dictInsert
  by_cases hp : d.any (fun p => decide (p.1 = k)) = true
  · rw [if_pos hp]
    have hkeys : (d.map (fun p => if p.1 = k then (k, v) else p)).map Prod.fst =
        d.map Prod.fst := by
      rw [List.map_map]
      refine List.map_congr_left ?_
      intro p _
      by_cases hpk : p.1 = k <;> simp [hpk]
    rw [hkeys]
    exact h
  · rw [if_neg hp]
    rw [List.map_append, List.nodup_append]
    refine ⟨h, by simp, ?_⟩
    intro a ha hb
    simp only [List.map_cons, List.map_nil, List.mem_singleton] at hb
    rw [Bool.not_eq_true, List.any_eq_false] at hp
    rcases List.mem_map.mp ha with ⟨p, hpd, rfl⟩
    exact absurd (by simpa using hb) (by simpa using hp p hpd)

/-- A Python-style dict insert of the key's own cost keeps every entry's value
equal to the cost of its key. -/
theorem dictInsert_values (cm : List (String × Int)) (k : String)
    (d : List (String × Int)) (h : ∀ p ∈ d, p.2 = stepCost cm p.1) :
    ∀ p ∈ dictInsert k (stepCost cm k) d, p.2 = stepCost cm p.1 := by
  unfold dictInsert
  by_cases hp : d.any (fun p => decide (p.1 = k)) = true
  · rw [if_pos hp]
    intro p hpmem
    rcases List.mem_map.mp hpmem with ⟨q, hqd, rfl⟩
    by_cases hqk : q.1 = k
    · simp only [hqk, if_true]
    · simp only [hqk, if_false]
      exact h q hqd
  · rw [if_neg hp]
    intro p hpmem
    rcases List.mem_append.mp hpmem with hpd | hpk
    · exact h p hpd
    · rcases List.mem_singleton.mp hpk with rfl
      rfl

/-- The running total of the estimate loop: initial total plus one cost per
step occurrence (duplicates counted multiply). -/
theorem estimateLoop_total (cm : List (String × Int)) (steps : List String) :
    ∀ (bd : List (String × Int)) (tot : Int),
      (estimateLoop cm steps bd tot).2 =
        tot + (steps.map (fun s => stepCost cm (pyUpper s))).sum := by
  induction steps with
  | nil => intro bd tot; simp [estimateLoop]
  | cons s rest ih =>
    intro bd tot
    simp only [estimateLoop, ih, List.map_cons, List.sum_cons]
    ring

/-- The breakdown built by the estimate loop: keys pairwise distinct, one key
per distinct uppercased step name, every value the cost of its key. -/
theorem estimateLoop_breakdown (cm : List (String × Int)) (steps : List String) :
    ∀ (bd : List (String × Int)) (tot : Int),
      (bd.map Prod.fst).Nodup →
      (∀ p ∈ bd, p.2 = stepCost cm p.1) →
      ((estimateLoop cm steps bd tot).1.map Prod.fst).Nodup ∧
      (∀ p ∈ (estimateLoop cm steps bd tot).1, p.2 = stepCost cm p.1) ∧
      (∀ k, k ∈ (estimateLoop cm steps bd tot).1.map Prod.fst ↔
        (k ∈ bd.map Prod.fst ∨ k ∈ steps.map pyUpper)) := by
  induction steps with
  | nil =>
    intro bd tot hnd hv
    refine ⟨hnd, hv, ?_⟩
    intro k
    simp [estimateLoop]
  | cons s rest ih =>
    intro bd tot hnd hv
    have hnd2 := dictInsert_keys_nodup (pyUpper s) (stepCost cm (pyUpper s)) bd hnd
    have hv2 := dictInsert_values cm (pyUpper s) bd hv
    rcases ih (dictInsert (pyUpper s) (stepCost cm (pyUpper s)) bd)
      (tot + stepCost cm (pyUpper s)) hnd2 hv2 with ⟨h1, h2, h3⟩
    refine ⟨h1, h2, ?_⟩
    intro k
    rw [estimateLoop]
    rw [h3 k, dictInsert_mem_keys]
    simp only [List.map_cons, List.mem_cons]
    tauto

/-- C9: EstimateCost is a pure function of its step list — its inputs contain
no database state. The total equals the sum over all step occurrences
(duplicates counted multiply) of the cost-table entry for the uppercased
step name with the DEFAULT fallback for unknown steps; the breakdown carries
exactly one entry per distinct uppercased step name, each entry's value the
cost of its key (so collapsing duplicates, last write winning with the same
value); the empty list yields total 0 and an empty breakdown. -/
theorem estimate_cost_spec (cm : List (String × Int)) (steps : List String) :
    ∃ r, EstimateCredit_execute cm steps = UCResult.ok r ∧
      r.estimated_credits = (steps.map (fun s => stepCost cm (pyUpper s))).sum ∧
      (r.breakdown.map Prod.fst).Nodup ∧
      (∀ k, k ∈ r.breakdown.map Prod.fst ↔ k ∈ steps.map pyUpper) ∧
      (∀ p ∈ r.breakdown, p.2 = stepCost cm p.1) ∧
      EstimateCredit_execute cm [] =
        UCResult.ok { estimated_credits := 0, breakdown := [] } := by
  rcases estimateLoop_breakdown cm steps [] 0 (by simp) (by simp)
    with ⟨h1, h2, h3⟩
  refine ⟨_, rfl, ?_, h1, ?_, h2, rfl⟩
  · show (estimateLoop cm steps [] 0).2 = _
    rw [estimateLoop_total cm steps [] 0]
    exact zero_add _
  · intro k
    rw [h3 k]
    simp

/-- Witness for C9: with the source's cost matrix, steps
`["code", "code", "xyz"]` cost 15.0 + 15.0 + 5.0 = 35.0 credits (in tenths:
150 + 150 + 50 = 350) with breakdown
`{CODE: 15, XYZ: 5}` (duplicate collapsed, unknown step on the DEFAULT
bucket), and the general theorem instantiates at this input. -/
theorem estimate_cost_spec_witness :
    EstimateCredit_execute STEP_COST_MATRIX ["code", "code", "xyz"] =
      UCResult.ok { estimated_credits := 350,
                    breakdown := [("CODE", 150), ("XYZ", 50)] } ∧
    ∃ r, EstimateCredit_execute STEP_COST_MATRIX ["code", "code", "xyz"] =
        UCResult.ok r ∧
      r.estimated_credits =
        (["code", "code", "xyz"].map
          (fun s => stepCost STEP_COST_MATRIX (pyUpper s))).sum ∧
      (r.breakdown.map Prod.fst).Nodup ∧
      (∀ k, k ∈ r.breakdown.map Prod.fst ↔
        k ∈ ["code", "code", "xyz"].map pyUpper) ∧
      (∀ p ∈ r.breakdown, p.2 = stepCost STEP_COST_MATRIX p.1) ∧
      EstimateCredit_execute STEP_COST_MATRIX [] =
        UCResult.ok { estimated_credits := 0, breakdown := [] } :=
  ⟨by decide, estimate_cost_spec STEP_COST_MATRIX ["code", "code", "xyz"]⟩

/-- Dedup contract of the anomaly store: at most one anomaly row per
(tenant, period_start, period_end). -/
def anomalyAtMostOne (db : DB) : Prop :=
  ∀ (tid : String) (s e : Nat),
    (db.anomalies.filter (fun a =>
      decide (a.tenant_id = tid) && decide (a.period_start = s) &&
      decide (a.period_end = e))).length ≤ 1

/-- The dedup check after one more anomaly row: the old check or a match of
the new row. -/
theorem exists_for_after_create (db : DB) (a : UsageAnomaly) (t : String)
    (s e : Nat) :
    anomaly_exists_for_tenant_period (anomaly_create db a) t s e =
      (anomaly_exists_for_tenant_period db t s e ||
        (decide (a.tenant_id = t) && decide (a.period_start = s) &&
          decide (a.period_end = e))) := by
  unfold anomaly_exists_for_tenant_period anomaly_create
  simp [List.any_append]

/-- A list whose projections under `f` are pairwise distinct has at most one
element satisfying a predicate that pins the projection to one value. -/
theorem length_filter_le_one_of_nodup_map {α β : Type} [DecidableEq β]
    (l : List α) (f : α → β) (p : α → Bool) (c : β)
    (hnd : (l.map f).Nodup) (hpc : ∀ x, p x = true → f x = c) :
    (l.filter p).length ≤ 1 := by
  induction l with
  | nil => simp
  | cons x xs ih =>
    rw [List.map_cons, List.nodup_cons] at hnd
    rcases hnd with ⟨hx, hxs⟩
    by_cases hpx : p x = true
    · rw [List.filter_cons_of_pos hpx]
      have hnil : xs.filter p = [] := by
        rw [List.filter_eq_nil_iff]
        intro y hy hpy
        exact hx (List.mem_map.mpr ⟨y, hy, (hpc y hpy).trans (hpc x hpx).symm⟩)
      rw [hnil]
      simp
    · rw [List.filter_cons_of_neg hpx]
      exact ih hxs

/-- The tenants returned by the consumption aggregation are pairwise
distinct (GROUP BY tenant_id). -/
theorem consumption_tenants_nodup (db : DB) (s e : Nat) :
    ((get_consumption_by_period db s e).map Prod.fst).Nodup := by
  unfold get_consumption_by_period
  rw [List.map_map]
  have h := List.map_id
    (((consumeTxInPeriod db s e).map (fun t => t.tenant_id)).dedup)
  rw [show (Prod.fst ∘ fun tid =>
      (tid, (((consumeTxInPeriod db s e).filter
        (fun t => decide (t.tenant_id = tid))).map (fun t => t.amount)).sum)) =
      (fun tid : String => tid) from rfl]
  rw [show (fun tid : String => tid) = @id String from rfl, h]
  exact List.nodup_dedup _

/-- Behaviour of the detector's per-tenant loop: the committed state appends
exactly the created rows; created tenants are a sub-sequence of the (pairwise
distinct) aggregated tenants; every created row carries DETECTED status, the
configured type, the threshold and the window, belongs to an over-threshold
aggregation entry not already recorded; and every over-threshold entry not
already recorded gets a created row. -/
theorem detectLoop_spec (threshold : Int) (atype : AnomalyType) (ps pe : Nat) :
    ∀ (cons : List (String × Int)) (db : DB),
      (cons.map Prod.fst).Nodup →
      (detectLoop threshold atype ps pe cons db).1.anomalies =
          db.anomalies ++ (detectLoop threshold atype ps pe cons db).2 ∧
      ((detectLoop threshold atype ps pe cons db).2.map
          (fun a => a.tenant_id)).Sublist (cons.map Prod.fst) ∧
      (∀ a ∈ (detectLoop threshold atype ps pe cons db).2,
        a.status = AnomalyStatus.detected ∧ a.anomaly_type = atype ∧
        a.threshold_value = threshold ∧ a.period_start = ps ∧
        a.period_end = pe ∧
        (a.tenant_id, a.actual_value) ∈ cons ∧ threshold < a.actual_value ∧
        anomaly_exists_for_tenant_period db a.tenant_id ps pe = false) ∧
      (∀ p ∈ cons, threshold < p.2 →
        anomaly_exists_for_tenant_period db p.1 ps pe = false →
        ∃ a ∈ (detectLoop threshold atype ps pe cons db).2,
          a.tenant_id = p.1 ∧ a.actual_value = p.2) := by
  intro cons
  induction cons with
  | nil =>
    intro db _
    refine ⟨by simp [detectLoop], by simp [detectLoop], ?_, ?_⟩
    · intro a ha
      simp [detectLoop] at ha
    · intro p hp _ _
      simp at hp
  | cons hd rest ih =>
    obtain ⟨tid, total⟩ := hd
    intro db hnd
    rw [List.map_cons, List.nodup_cons] at hnd
    rcases hnd with ⟨htid, hrest⟩
    by_cases hthr : threshold < total
    · by_cases hex : anomaly_exists_for_tenant_period db tid ps pe = true
      · -- dedup skip: an anomaly already exists for this tenant and window
        have hloop : detectLoop threshold atype ps pe ((tid, total) :: rest) db =
            detectLoop threshold atype ps pe rest db := by
          simp only [detectLoop]
          rw [if_pos hthr, if_pos hex]
        rcases ih db hrest with ⟨h1, h2, h3, h4⟩
        rw [hloop]
        refine ⟨h1, h2.cons _, ?_, ?_⟩
        · intro a ha
          rcases h3 a ha with ⟨s1, s2, s3, s4, s5, s6, s7, s8⟩
          exact ⟨s1, s2, s3, s4, s5, List.mem_cons_of_mem _ s6, s7, s8⟩
        · intro p hp hpt hpex
          rcases List.mem_cons.mp hp with heq | hp2
          · rw [heq] at hpex
            rw [hpex] at hex
            exact absurd hex (by simp)
          · exact h4 p hp2 hpt hpex
      · -- create branch
        have hexf : anomaly_exists_for_tenant_period db tid ps pe = false :=
          Bool.not_eq_true _ ▸ Bool.eq_false_iff.mpr hex
        rcases ih (anomaly_create db
          { id := db.next_anomaly_id, tenant_id := tid, anomaly_type := atype,
            status := AnomalyStatus.detected, threshold_value := threshold,
            actual_value := total, period_start := ps, period_end := pe,
            detected_at := db.now }) hrest with ⟨h1, h2, h3, h4⟩
        simp only [detectLoop]
        rw [if_pos hthr, if_neg hex]
        refine ⟨?_, ?_, ?_, ?_⟩
        · rw [h1]
          show (db.anomalies ++ [_]) ++ _ = _
          rw [List.append_assoc, List.singleton_append]
        · exact List.Sublist.cons₂ _ h2
        · intro a ha
          rcases List.mem_cons.mp ha with rfl | ha2
          · exact ⟨rfl, rfl, rfl, rfl, rfl, List.mem_cons_self _ _, hthr, hexf⟩
          · rcases h3 a ha2 with ⟨s1, s2, s3, s4, s5, s6, s7, s8⟩
            rw [exists_for_after_create] at s8
            rcases Bool.or_eq_false_iff.mp s8 with ⟨s8a, _⟩
            exact ⟨s1, s2, s3, s4, s5, List.mem_cons_of_mem _ s6, s7, s8a⟩
        · intro p hp hpt hpex
          rcases List.mem_cons.mp hp with heq | hp2
          · refine ⟨_, List.mem_cons_self _ _, ?_, ?_⟩
            · rw [heq]
            · rw [heq]
          · have hne : tid ≠ p.1 := by
              intro hcontra
              exact htid (hcontra ▸ List.mem_map.mpr ⟨p, hp2, rfl⟩)
            have hpex2 : anomaly_exists_for_tenant_period
                (anomaly_create db
                  { id := db.next_anomaly_id, tenant_id := tid,
                    anomaly_type := atype, status := AnomalyStatus.detected,
                    threshold_value := threshold, actual_value := total,
                    period_start := ps, period_end := pe,
                    detected_at := db.now }) p.1 ps pe = false := by
              rw [exists_for_after_create]
              rw [hpex]
              simp [hne]
            rcases h4 p hp2 hpt hpex2 with ⟨a, ha, ha2⟩
            exact ⟨a, List.mem_cons_of_mem _ ha, ha2⟩
    · -- below threshold: skip
      have hloop : detectLoop threshold atype ps pe ((tid, total) :: rest) db =
          detectLoop threshold atype ps pe rest db := by
        simp only [detectLoop]
        rw [if_neg hthr]
      rcases ih db hrest with ⟨h1, h2, h3, h4⟩
      rw [hloop]
      refine ⟨h1, h2.cons _, ?_, ?_⟩
      · intro a ha
        rcases h3 a ha with ⟨s1, s2, s3, s4, s5, s6, s7, s8⟩
        exact ⟨s1, s2, s3, s4, s5, List.mem_cons_of_mem _ s6, s7, s8⟩
      · intro p hp hpt hpex
        rcases List.mem_cons.mp hp with heq | hp2
        · exact absurd hpt (by rw [heq] at hpt ⊢; exact fun _ => hthr hpt)
        · exact h4 p hp2 hpt hpex

/-- C6: for every detection run over the window `[ps, pe)` on a store
satisfying the dedup contract, the detector creates a new anomaly record —
status DETECTED, the configured type, `threshold_value` the configured
threshold and `actual_value` the tenant's summed CONSUME amount — exactly
for those tenants whose sum is strictly greater than the threshold and for
which no anomaly already exists for this (tenant, period_start, period_end);
the committed state appends exactly those records, so it still holds at most
one anomaly row per (tenant, period_start, period_end). -/
theorem detector_spec (db : DB) (threshold : Int) (atype : AnomalyType)
    (ps pe : Nat) (hmo : anomalyAtMostOne db) :
    ∃ db2 resp,
      DetectAbnormalUsage_execute db threshold atype ps pe =
        (db2, UCResult.ok resp) ∧
      db2.anomalies = db.anomalies ++ resp.anomalies ∧
      resp.anomalies_detected = resp.anomalies.length ∧
      (∀ a ∈ resp.anomalies,
        a.status = AnomalyStatus.detected ∧ a.anomaly_type = atype ∧
        a.threshold_value = threshold ∧ a.period_start = ps ∧
        a.period_end = pe ∧
        (a.tenant_id, a.actual_value) ∈ get_consumption_by_period db ps pe ∧
        threshold < a.actual_value ∧
        anomaly_exists_for_tenant_period db a.tenant_id ps pe = false) ∧
      (∀ p ∈ get_consumption_by_period db ps pe, threshold < p.2 →
        anomaly_exists_for_tenant_period db p.1 ps pe = false →
        ∃ a ∈ resp.anomalies, a.tenant_id = p.1 ∧ a.actual_value = p.2) ∧
      anomalyAtMostOne db2 := by
  rcases detectLoop_spec threshold atype ps pe
    (get_consumption_by_period db ps pe) db
    (consumption_tenants_nodup db ps pe) with ⟨h1, h2, h3, h4⟩
  refine ⟨_, _, rfl, h1, rfl, h3, h4, ?_⟩
  intro tid s e
  rw [h1, List.filter_append, List.length_append]
  by_cases hc : ((detectLoop threshold atype ps pe
      (get_consumption_by_period db ps pe) db).2.filter (fun a =>
        decide (a.tenant_id = tid) && decide (a.period_start = s) &&
        decide (a.period_end = e))) = []
  · rw [hc]
    simpa using hmo tid s e
  · rcases List.exists_mem_of_ne_nil _ hc with ⟨a, ha⟩
    rcases List.mem_filter.mp ha with ⟨ha1, ha2⟩
    have ha3 : (a.tenant_id = tid ∧ a.period_start = s) ∧ a.period_end = e := by
      simpa using ha2
    rcases h3 a ha1 with ⟨_, _, _, s4, s5, _, _, s8⟩
    have hs : s = ps := ha3.1.2 ▸ s4
    have he : e = pe := ha3.2 ▸ s5
    have hzero : (db.anomalies.filter (fun b =>
        decide (b.tenant_id = tid) && decide (b.period_start = s) &&
        decide (b.period_end = e))).length = 0 := by
      rw [List.length_eq_zero, List.filter_eq_nil_iff]
      intro b hb hpb
      have hfalse : anomaly_exists_for_tenant_period db tid s e = false := by
        rw [hs, he]
        rw [← ha3.1.1]
        exact s8
      rw [anomaly_exists_for_tenant_period, List.any_eq_false] at hfalse
      exact hfalse b hb hpb
    rw [hzero]
    have hone : ((detectLoop threshold atype ps pe
        (get_consumption_by_period db ps pe) db).2.filter (fun a =>
          decide (a.tenant_id = tid) && decide (a.period_start = s) &&
          decide (a.period_end = e))).length ≤ 1 := by
      refine length_filter_le_one_of_nodup_map _ (fun a => a.tenant_id) _ tid
        (h2.nodup (consumption_tenants_nodup db ps pe)) ?_
      intro x hx
      have : (x.tenant_id = tid ∧ x.period_start = s) ∧ x.period_end = e := by
        simpa using hx
      exact this.1.1
    omega

/-- Detection fixture: tenant `T1` consumed 150 and tenant `T2` consumed 50
inside the window `[0, 10)`; an ALLOCATE row sits in the window too and must
not count. No anomaly rows exist yet. -/
def W6_db : DB :=
  { ledgers := [{ id := 1, tenant_id := "T1", balance := 850,
                  monthly_limit := none, created_at := 0, updated_at := 3 },
                { id := 2, tenant_id := "T2", balance := 50,
                  monthly_limit := none, created_at := 0, updated_at := 3 }],
    transactions :=
      [{ id := 1, tenant_id := "T1", ledger_id := 1,
         transaction_type := TransactionType.allocate, amount := 1000,
         balance_before := 0, balance_after := 1000,
         reference_type := none, reference_id := none,
         idempotency_key := "u0", created_at := 1 },
       { id := 2, tenant_id := "T1", ledger_id := 1,
         transaction_type := TransactionType.consume, amount := 150,
         balance_before := 1000, balance_after := 850,
         reference_type := none, reference_id := none,
         idempotency_key := "u1", created_at := 2 },
       { id := 3, tenant_id := "T2", ledger_id := 2,
         transaction_type := TransactionType.consume, amount := 50,
         balance_before := 100, balance_after := 50,
         reference_type := none, reference_id := none,
         idempotency_key := "u2", created_at := 3 }],
    anomalies := [],
    next_ledger_id := 3, next_tx_id := 4, next_anomaly_id := 1, now := 20 }

/-- Witness for C6: running the detector with threshold 100 over `[0, 10)` on
the fixture — where only `T1` is above the threshold — satisfies the general
detector theorem at this concrete input. -/
theorem detector_spec_witness :
    ∃ db2 resp,
      DetectAbnormalUsage_execute W6_db 100 AnomalyType.hourly_threshold 0 10 =
        (db2, UCResult.ok resp) ∧
      db2.anomalies = W6_db.anomalies ++ resp.anomalies ∧
      resp.anomalies_detected = resp.anomalies.length ∧
      (∀ a ∈ resp.anomalies,
        a.status = AnomalyStatus.detected ∧
        a.anomaly_type = AnomalyType.hourly_threshold ∧
        a.threshold_value = 100 ∧ a.period_start = 0 ∧ a.period_end = 10 ∧
        (a.tenant_id, a.actual_value) ∈ get_consumption_by_period W6_db 0 10 ∧
        100 < a.actual_value ∧
        anomaly_exists_for_tenant_period W6_db a.tenant_id 0 10 = false) ∧
      (∀ p ∈ get_consumption_by_period W6_db 0 10, 100 < p.2 →
        anomaly_exists_for_tenant_period W6_db p.1 0 10 = false →
        ∃ a ∈ resp.anomalies, a.tenant_id = p.1 ∧ a.actual_value = p.2) ∧
      anomalyAtMostOne db2 :=
  detector_spec W6_db 100 AnomalyType.hourly_threshold 0 10
    (by intro tid s e; simp [W6_db])
